import Mathlib

/-!
Verification development for the gorcery coordination server.

The repository holds three near identical Express servers:
  src/main-server.js, src/unnamed/part_000, src/unnamed/part_001.
Each endpoint is embedded as a pure Lean function over an explicit state
(the three JSON collections: stores, products, orders).

Modelling conventions, used consistently below:
- A JSON record is an association list of string keys to `JVal` values
  (`JObj`).  JavaScript property lookup is `jget`, property assignment is
  `jset` (get-equivalent to the source object-spread semantics), and the
  object spread merge of the source, where keys of the update win, is
  `jmerge`.
- Timestamps (the source stores ISO strings and compares them after
  `new Date` parsing) are modelled by their epoch-millisecond value as
  `JVal.num`.  A `lastSeen`/`createdAt` value that is absent or is not a
  parseable timestamp parses to `none` (the JavaScript NaN date), and any
  numeric comparison against NaN is false (`jsltQ`).
- `readJSON`/`writeJSON` become explicit list arguments and results; an
  endpoint that answers an HTTP error before writing returns
  `Except.error (status, message)` and produces no new collection, which
  models that nothing is persisted on that path.
- Outbound `fetch` calls are an oracle parameter mapping the fetched url
  value to `some products` (HTTP success with a JSON body) or `none`
  (thrown error or a non ok response).
-/

namespace Gorcery

/-- A JavaScript JSON value.  Nested arrays and objects are not needed by
any claim; a non primitive field value can be represented by any truthy
constructor. -/
inductive JVal where
  | str : String → JVal
  | num : Int → JVal
  | bool : Bool → JVal
  | null : JVal
deriving DecidableEq, Repr

/-- A JavaScript object: an association list from property names to values.
`jget` returns the first binding, so earlier bindings shadow later ones. -/
abbrev JObj := List (String × JVal)

/-- Property read `o.k`: `none` models the JavaScript `undefined`. -/
def jget (o : JObj) (k : String) : Option JVal :=
  List.lookup k o

/-- Object spread `\x7b ...base, ...upd \x7d`: every key of `upd` wins over
the same key of `base`, all other keys of `base` survive. -/
def jmerge (base upd : JObj) : JObj :=
  base.filter (fun kv => (List.lookup kv.1 upd).isNone) ++ upd

/-- Property assignment `o.k = v`, get-equivalent to `\x7b ...o, k: v \x7d`. -/
def jset (o : JObj) (k : String) (v : JVal) : JObj :=
  jmerge o [(k, v)]

/-- Property assignment from a possibly undefined source value:
`o.k = v` where `v` may be `undefined` leaves reads of every key of `o`
unchanged when `v` is undefined. -/
def jsetv (o : JObj) (k : String) (v : Option JVal) : JObj :=
  match v with
  | some x => jset o k x
  | none => o

/-- JavaScript truthiness of a value. -/
def truthyV : JVal → Bool
  | .str s => s != ""
  | .num n => n != 0
  | .bool b => b
  | .null => false

/-- JavaScript truthiness of a possibly undefined value, as used by the
validation guards `if (!x.field)`. -/
def truthy : Option JVal → Bool
  | none => false
  | some v => truthyV v

/-- The JavaScript `v || d` default operator on a possibly undefined
value. -/
def jsOr (v : Option JVal) (d : JVal) : JVal :=
  match v with
  | some x => if truthyV x then x else d
  | none => d

/-- In place update of the first list element satisfying `p`, as performed
by the source pattern `findIndex` followed by `arr[i] = f(arr[i])`. -/
def updateWhere (p : JObj → Bool) (f : JObj → JObj) : List JObj → List JObj
  | [] => []
  | s :: rest => if p s then f s :: rest else s :: updateWhere p f rest

/-! ### Basic lemmas about the object model -/

theorem lookup_append (k : String) (l₁ l₂ : JObj) :
    List.lookup k (l₁ ++ l₂) = (List.lookup k l₁).or (List.lookup k l₂) := by
  induction l₁ with
  | nil => simp [List.lookup]
  | cons kv rest ih =>
    by_cases h : k == kv.1
    · simp [List.lookup, h]
    · simp [List.lookup, h, ih]

theorem lookup_filter_out (k : String) (base upd : JObj) :
    List.lookup k (base.filter (fun kv => (List.lookup kv.1 upd).isNone)) =
      if (List.lookup k upd).isSome then none else List.lookup k base := by
  induction base with
  | nil => simp [List.lookup]
  | cons kv rest ih =>
    by_cases hk : k == kv.1
    · have hk' : k = kv.1 := by simpa using hk
      by_cases hu : (List.lookup k upd).isSome
      · have : (List.lookup kv.1 upd).isNone = false := by
          rw [← hk']; simpa [Option.isNone_iff_eq_none] using
            Option.ne_none_iff_isSome.mpr hu
        simp [List.filter, this, ih, hu]
      · have : (List.lookup kv.1 upd).isNone = true := by
          rw [← hk']
          simpa [Option.isNone_iff_eq_none, ← Option.not_isSome_iff_eq_none] using hu
        simp [List.filter, this, List.lookup, hk, hu]
    · by_cases hkeep : (List.lookup kv.1 upd).isNone
      · simp [List.filter, hkeep, List.lookup, hk, ih]
      · simp only [List.filter]
        rw [Bool.not_eq_true] at hkeep
        simp [hkeep, List.lookup, hk, ih]

/-- Reading a merged object: the update wins on its own keys, the base
answers otherwise. -/
theorem jget_jmerge (base upd : JObj) (k : String) :
    jget (jmerge base upd) k = (jget upd k).or (jget base k) := by
  unfold jget jmerge
  rw [lookup_append, lookup_filter_out]
  cases h : List.lookup k upd with
  | none => simp [h]
  | some v => simp [h]

theorem jget_jset_self (o : JObj) (k : String) (v : JVal) :
    jget (jset o k v) k = some v := by
  unfold jset
  rw [jget_jmerge]
  simp [jget, List.lookup]

theorem jget_jset_other (o : JObj) (k k' : String) (v : JVal) (h : k' ≠ k) :
    jget (jset o k v) k' = jget o k' := by
  unfold jset
  rw [jget_jmerge]
  have : (k' == k) = false := by simpa using h
  simp [jget, List.lookup, this]

theorem updateWhere_eq (p : JObj → Bool) (f : JObj → JObj)
    (pre post : List JObj) (old : JObj)
    (hpre : ∀ s ∈ pre, p s = false) (hold : p old = true) :
    updateWhere p f (pre ++ old :: post) = pre ++ f old :: post := by
  induction pre with
  | nil => simp [updateWhere, hold]
  | cons s rest ih =>
    have hs : p s = false := hpre s (by simp)
    simp only [List.cons_append, updateWhere, hs]
    simp only [Bool.false_eq_true, if_false, List.cons.injEq, true_and]
    exact ih fun x hx => hpre x (by simp [hx])

theorem any_of_mem_middle (p : JObj → Bool) (pre post : List JObj) (old : JObj)
    (hold : p old = true) :
    (pre ++ old :: post).any p = true := by
  simp only [List.any_eq_true]
  exact ⟨old, by simp, hold⟩

/-! ### POST /api/stores/register

Three variants.  `main-server.js` validates `storeId` and `name` and stamps
`registeredAt` unconditionally with the current time; `part_000`
additionally requires `url` and keeps a `registeredAt` carried by the
incoming payload (`storeInfo.registeredAt || now`); `part_001` performs no
validation and never touches `registeredAt`.  All three merge over an
existing record with the same `storeId` by object spread (payload wins)
and append otherwise. -/

/-- The payload after the stamp mutations of `main-server.js` lines 90 to
92: `lastSeen = now`, `status = "online"`, `registeredAt = now`. -/
def regPayloadMain (now : Int) (body : JObj) : JObj :=
  jset (jset (jset body "lastSeen" (.num now)) "status" (.str "online"))
    "registeredAt" (.num now)

/-- `POST /api/stores/register` of `main-server.js`: validates, stamps the
payload, then merges into the first record with the same `storeId` or
appends.  The error branch writes nothing. -/
def registerMain (now : Int) (stores : List JObj) (body : JObj) :
    Except (Nat × String) (List JObj) :=
  if !truthy (jget body "storeId") || !truthy (jget body "name") then
    .error (400, "Missing required fields: storeId and name are required")
  else
    let storeInfo := regPayloadMain now body
    let sameId := fun s => jget s "storeId" == jget storeInfo "storeId"
    if stores.any sameId then
      .ok (updateWhere sameId (fun old => jmerge old storeInfo) stores)
    else
      .ok (stores ++ [storeInfo])

/-- The payload after the stamp mutations of `part_000` lines 87 to 89:
`lastSeen = now`, `status = "online"`,
`registeredAt = storeInfo.registeredAt || now` (the payload value if
truthy, else the current time — the stored record is never consulted). -/
def regPayloadP0 (now : Int) (body : JObj) : JObj :=
  let s1 := jset (jset body "lastSeen" (.num now)) "status" (.str "online")
  jset s1 "registeredAt" (jsOr (jget s1 "registeredAt") (.num now))

/-- `POST /api/stores/register` of `part_000`: like `registerMain` but
`url` is also required and `registeredAt` comes from the payload when
supplied. -/
def registerP0 (now : Int) (stores : List JObj) (body : JObj) :
    Except (Nat × String) (List JObj) :=
  if !truthy (jget body "storeId") || !truthy (jget body "name")
      || !truthy (jget body "url") then
    .error (400, "Missing required fields: storeId, name, and url are required")
  else
    let storeInfo := regPayloadP0 now body
    let sameId := fun s => jget s "storeId" == jget storeInfo "storeId"
    if stores.any sameId then
      .ok (updateWhere sameId (fun old => jmerge old storeInfo) stores)
    else
      .ok (stores ++ [storeInfo])

/-- The payload after the stamp mutations of `part_001` lines 67 to 68:
only `lastSeen` and `status` are set; `registeredAt` is never written. -/
def regPayloadP1 (now : Int) (body : JObj) : JObj :=
  jset (jset body "lastSeen" (.num now)) "status" (.str "online")

/-- `POST /api/stores/register` of `part_001` lines 64 to 87: there is no
validation guard at all, so every payload is stamped and stored (the later
connectivity probe does not touch the collection). -/
def registerP1 (now : Int) (stores : List JObj) (body : JObj) : List JObj :=
  let storeInfo := regPayloadP1 now body
  let sameId := fun s => jget s "storeId" == jget storeInfo "storeId"
  if stores.any sameId then
    updateWhere sameId (fun old => jmerge old storeInfo) stores
  else
    stores ++ [storeInfo]

/-! ### GET /api/stores — liveness recomputation

`main-server.js` and `part_000` use a 10 minute threshold, `part_001` a
5 minute one; the computation is otherwise identical:
`minutesAgo = (now - new Date(lastSeen)) / (1000 * 60)` and
`status = minutesAgo < threshold ? "online" : "offline"`. -/

/-- `new Date(v)` on a stored field: a numeric timestamp parses to itself,
an absent or non parseable value gives the invalid date (NaN), modelled as
`none`. -/
def parseDateVal : Option JVal → Option Int
  | some (.num n) => some n
  | _ => none

/-- JavaScript `<` where the left side may be NaN: any comparison with NaN
is false. -/
def jsltQ : Option ℚ → ℚ → Bool
  | none, _ => false
  | some x, y => decide (x < y)

/-- `(now - lastSeen) / (1000 * 60)` in minutes; `none` is NaN. -/
def minutesSince (now : Int) (lastSeen : Option JVal) : Option ℚ :=
  (parseDateVal lastSeen).map (fun t => ((now - t : Int) : ℚ) / (1000 * 60))

/-- The recomputed status of one store record. -/
def computeStatus (threshold : ℚ) (now : Int) (lastSeen : Option JVal) :
    String :=
  if jsltQ (minutesSince now lastSeen) threshold then "online" else "offline"

/-- `GET /api/stores`: recomputes every status from `lastSeen` and writes
the updated collection back (the returned list is also the persisted
one). -/
def storesList (threshold : ℚ) (now : Int) (stores : List JObj) :
    List JObj :=
  stores.map (fun s =>
    jset s "status" (.str (computeStatus threshold now (jget s "lastSeen"))))

/-! ### POST /api/stores/manual-add (main-server.js lines 169 to 205)

Destructures `storeId`, `name`, `location`, `url` from the body, validates
`storeId` and `name`, builds a fresh six field record and assigns it over
the matching index (wholesale replacement), or appends. -/

def manualAddMain (now : Int) (stores : List JObj) (body : JObj) :
    Except (Nat × String) (List JObj × JObj) :=
  let storeId := jget body "storeId"
  if !truthy storeId || !truthy (jget body "name") then
    .error (400, "storeId and name are required")
  else
    let storeInfo : JObj :=
      [("storeId", storeId.getD .null),
       ("name", (jget body "name").getD .null),
       ("location", jsOr (jget body "location") (.str "Unknown Location")),
       ("url", jsOr (jget body "url") (.str "http://localhost:3000")),
       ("lastSeen", .num now),
       ("status", .str "online")]
    let sameId := fun s => jget s "storeId" == storeId
    if stores.any sameId then
      .ok (updateWhere sameId (fun _ => storeInfo) stores, storeInfo)
    else
      .ok (stores ++ [storeInfo], storeInfo)

/-! ### POST /api/stores/:storeId/sync-products -/

/-- `syncOne`: resolve the store by id (404 when absent), fetch
`store.url + "/api/products"` (500 on throw or non ok response), then
replace the products tagged with this `storeId` by the fetched list:
`allProducts.filter(p => p.storeId !== storeId)` concatenated with the
fetched products.  Returns the new catalog, the fetched count, and the
store display name. -/
def syncOne (fetch : Option JVal → Option (List JObj)) (storeId : String)
    (stores products : List JObj) :
    Except (Nat × String) (List JObj × Nat × Option JVal) :=
  match stores.find? (fun s => jget s "storeId" == some (.str storeId)) with
  | none => .error (404, "Store not found")
  | some store =>
    match fetch (jget store "url") with
    | none => .error (500, "Failed to sync products: fetch failed")
    | some ps =>
      .ok (products.filter
            (fun p => !(jget p "storeId" == some (.str storeId))) ++ ps,
          ps.length, jget store "name")

/-! ### POST /api/stores/sync-all (part_000 lines 257 to 293, part_001
lines 236 to 272; absent from main-server.js)

Filters the stored collection on the persisted `status` field, then for
each selected store attempts the fetch; a throw is caught and a non ok
response is skipped, both leaving the counters untouched, and the loop
continues either way. -/

/-- One loop iteration of `sync-all` over the accumulated
(catalog, totalProducts, syncedStores) state. -/
def syncStep (fetch : Option JVal → Option (List JObj))
    (acc : List JObj × Nat × Nat) (store : JObj) : List JObj × Nat × Nat :=
  match fetch (jget store "url") with
  | some ps =>
      (acc.1.filter (fun p => !(jget p "storeId" == jget store "storeId"))
          ++ ps,
       acc.2.1 + ps.length, acc.2.2 + 1)
  | none => acc

/-- `POST /api/stores/sync-all`: note the selection is
`stores.filter(s => s.status === "online")` on the persisted field, with
no recomputation from `lastSeen`. -/
def syncAll (fetch : Option JVal → Option (List JObj))
    (stores products : List JObj) : List JObj × Nat × Nat :=
  (stores.filter (fun s => jget s "status" == some (.str "online"))).foldl
    (syncStep fetch) (products, 0, 0)

/-! ### POST /api/orders

Validation of `storeId`, `items`, `customer` (400), stamps, registry
lookup (404 before any write to the order collection), denormalises
`storeName`, then appends and persists.  The later best effort forward to
the store in `part_001` happens after the write and never changes the
persisted collection, so it is not modelled. -/

def createOrder (now : Int) (stores orders : List JObj) (body : JObj) :
    Except (Nat × String) (List JObj × JObj) :=
  if !truthy (jget body "storeId") || !truthy (jget body "items")
      || !truthy (jget body "customer") then
    .error (400, "Missing required fields")
  else
    let order1 :=
      jset (jset (jset body "orderId" (.str ("MAIN-ORD-" ++ toString now)))
        "createdAt" (.num now)) "status" (.str "pending")
    match stores.find? (fun s => jget s "storeId" == jget order1 "storeId") with
    | none => .error (404, "Store not found")
    | some store =>
      let order2 := jsetv order1 "storeName" (jget store "name")
      .ok (orders ++ [order2], order2)

/-! ### GET /api/orders

`part_000` and `part_001` filter on the `storeId` and `status` query
parameters (`status === "all"` and falsy parameters mean no filter) and
then sort by `createdAt` descending.  `main-server.js` lines 296 to 303
simply return the stored collection: no filter, no sort. -/

/-- The numeric `createdAt` used by the sort comparator
`new Date(b.createdAt) - new Date(a.createdAt)`; the claims below only
concern records carrying a parseable timestamp. -/
def dateNum (o : JObj) : Int :=
  match jget o "createdAt" with
  | some (.num t) => t
  | _ => 0

/-- Descending order on `createdAt`: `a` may precede `b` exactly when the
comparator is non positive. -/
def ordersGE (a b : JObj) : Prop := dateNum b ≤ dateNum a

instance : DecidableRel ordersGE := fun a b =>
  inferInstanceAs (Decidable (dateNum b ≤ dateNum a))

instance : IsTotal JObj ordersGE :=
  ⟨fun a b => le_total (dateNum b) (dateNum a)⟩

instance : IsTrans JObj ordersGE :=
  ⟨fun _ _ _ h1 h2 => le_trans h2 h1⟩

/-- Truthiness of a query parameter: present and non empty. -/
def qTruthy : Option String → Bool
  | none => false
  | some s => s != ""

/-- The two filter steps of `GET /api/orders` in `part_000`/`part_001`. -/
def ordersFilter (storeId status : Option String) (orders : List JObj) :
    List JObj :=
  let o1 := if qTruthy storeId then
      orders.filter (fun o => jget o "storeId" == (storeId.map JVal.str))
    else orders
  if qTruthy status && !(status == some "all") then
    o1.filter (fun o => jget o "status" == (status.map JVal.str))
  else o1

/-- `GET /api/orders` of `part_000`/`part_001`: filter then sort newest
first.  A pure read: no collection is written back. -/
def listOrders (storeId status : Option String) (orders : List JObj) :
    List JObj :=
  List.insertionSort ordersGE (ordersFilter storeId status orders)

/-- `GET /api/orders` of `main-server.js`: returns the stored collection
as read, ignoring query parameters, in stored order. -/
def getOrdersMain (orders : List JObj) : List JObj := orders

/-! ### Helper lemmas about the liveness computation -/

theorem online_iff_aux {c : Prop} [Decidable c] :
    ((if decide c = true then "online" else "offline") = "online") ↔ c := by
  by_cases h : c <;> simp [h]

theorem offline_iff_aux {c : Prop} [Decidable c] :
    ((if decide c = true then "online" else "offline") = "offline") ↔ ¬c := by
  by_cases h : c <;> simp [h]

/-- The recomputed status is online exactly when the elapsed gap in
milliseconds is strictly below the threshold expressed in
milliseconds. -/
theorem computeStatus_online_iff (thr : ℚ) (now ls : Int) :
    computeStatus thr now (some (JVal.num ls)) = "online" ↔
      ((now : ℚ) - ls) < thr * (1000 * 60) := by
  simp only [computeStatus, minutesSince, parseDateVal, jsltQ, Option.map_some']
  rw [online_iff_aux, div_lt_iff₀ (by norm_num : (0:ℚ) < 1000 * 60)]
  push_cast
  tauto

theorem computeStatus_offline_iff (thr : ℚ) (now ls : Int) :
    computeStatus thr now (some (JVal.num ls)) = "offline" ↔
      ¬ (((now : ℚ) - ls) < thr * (1000 * 60)) := by
  simp only [computeStatus, minutesSince, parseDateVal, jsltQ, Option.map_some']
  rw [offline_iff_aux, div_lt_iff₀ (by norm_num : (0:ℚ) < 1000 * 60)]
  push_cast
  tauto

/-! ### Claim C5 -/

/-- C5: the status recomputed by the store list operation is online
exactly when `now - lastSeen` is strictly below the liveness threshold
(10 minutes in `main-server.js` and `part_000`, 5 in `part_001`) and
offline otherwise; a 9 minute gap is online, an 11 minute gap is offline,
and a gap exactly equal to the threshold is offline. -/
theorem c5_status_threshold :
    (∀ (thr : ℚ) (now ls : Int),
        computeStatus thr now (some (JVal.num ls)) = "online" ↔
          ((now : ℚ) - ls) < thr * (1000 * 60))
    ∧ (∀ (thr : ℚ) (now : Int) (s : JObj),
        storesList thr now [s] =
          [jset s "status" (JVal.str (computeStatus thr now (jget s "lastSeen")))])
    ∧ computeStatus 10 (9 * 60000) (some (JVal.num 0)) = "online"
    ∧ computeStatus 10 (11 * 60000) (some (JVal.num 0)) = "offline"
    ∧ computeStatus 10 (10 * 60000) (some (JVal.num 0)) = "offline"
    ∧ computeStatus 5 (4 * 60000) (some (JVal.num 0)) = "online"
    ∧ computeStatus 5 (5 * 60000) (some (JVal.num 0)) = "offline" := by
  refine ⟨computeStatus_online_iff, fun thr now s => rfl, ?_, ?_, ?_, ?_, ?_⟩
  · rw [computeStatus_online_iff]; norm_num
  · rw [computeStatus_offline_iff]; norm_num
  · rw [computeStatus_offline_iff]; norm_num
  · rw [computeStatus_online_iff]; norm_num
  · rw [computeStatus_offline_iff]; norm_num

/-! ### Claim C10 -/

/-- C10: a store record whose `lastSeen` is absent or not a parseable
timestamp (`parseDateVal` gives the NaN date) is classified offline by the
store list operation, never online, and the computation is total. -/
theorem c10_invalid_lastSeen_offline (thr : ℚ) (now : Int) (v : Option JVal)
    (hv : parseDateVal v = none) :
    computeStatus thr now v = "offline"
    ∧ ∀ s : JObj, jget s "lastSeen" = v →
        storesList thr now [s] = [jset s "status" (JVal.str "offline")] := by
  have h1 : computeStatus thr now v = "offline" := by
    simp [computeStatus, minutesSince, hv, jsltQ]
  exact ⟨h1, fun s hs => by simp [storesList, hs, h1]⟩

/-- Witness for C10 at the record with no `lastSeen` field at all. -/
theorem c10_invalid_lastSeen_offline_witness :
    computeStatus 10 0 none = "offline" :=
  (c10_invalid_lastSeen_offline 10 0 none rfl).1

/-! ### Claim C2 -/

/-- Counterexample to C2: `sync-all` filters on the persisted `status`
field, not on the liveness view recomputed from `lastSeen`.  A store whose
stored status is still "online" but whose `lastSeen` lies 100 minutes in
the past is offline in the liveness view under both the 10 and the
5 minute thresholds, yet `sync-all` attempts it (and here syncs it). -/
theorem c2_syncAll_ignores_liveness :
    (syncAll (fun _ => some [])
        [[("storeId", JVal.str "a"), ("url", JVal.str "http://a"),
          ("status", JVal.str "online"), ("lastSeen", JVal.num 0)]] []).2.2 = 1
    ∧ computeStatus 10 6000000 (some (JVal.num 0)) = "offline"
    ∧ computeStatus 5 6000000 (some (JVal.num 0)) = "offline" := by
  refine ⟨by decide, ?_, ?_⟩
  · rw [computeStatus_offline_iff]; norm_num
  · rw [computeStatus_offline_iff]; norm_num

theorem syncStep_const_count (ps : List JObj) (l : List JObj)
    (acc : List JObj × Nat × Nat) :
    ((l.foldl (syncStep (fun _ => some ps)) acc)).2.2 = acc.2.2 + l.length := by
  induction l generalizing acc with
  | nil => simp
  | cons s rest ih =>
    simp only [List.foldl_cons, ih, syncStep, List.length_cons]
    omega

/-- C2 amended: `sync-all` attempts a sync exactly for the stores whose
persisted `status` field equals "online" — the status most recently
written by register, manual-add or the last store listing — and for no
others; `lastSeen` is not consulted.  Observed through an always
succeeding fetch, under which the count of synced stores equals the count
of attempts. -/
theorem c2_syncAll_stored_status_amended (stores products ps : List JObj) :
    (syncAll (fun _ => some ps) stores products).2.2 =
      (stores.filter (fun s => jget s "status" == some (JVal.str "online"))).length := by
  unfold syncAll
  rw [syncStep_const_count]
  simp

/-! ### Claim C3 -/

/-- Counterexample to C3: the `part_001` register endpoint (cited by the
claim) has no validation guard; the empty payload, with both `storeId` and
`name` absent, is stamped and appended, and the request succeeds. -/
theorem c3_registerP1_no_validation :
    registerP1 0 [] [] =
      [[("lastSeen", JVal.num 0), ("status", JVal.str "online")]] := by
  decide

/-- C3 amended: in `main-server.js` (and, with `url` additionally
required, in `part_000`), register answers 400 and persists nothing
exactly when `storeId` or `name` is missing, and produces an updated
collection exactly when both are present; the `part_001` variant performs
no validation at all and appends regardless. -/
theorem c3_register_validation_amended (now : Int) (stores : List JObj)
    (body : JObj) :
    ((∃ msg, registerMain now stores body = Except.error (400, msg)) ↔
      (truthy (jget body "storeId") && truthy (jget body "name")) = false)
    ∧ ((∃ stores2, registerMain now stores body = Except.ok stores2) ↔
      (truthy (jget body "storeId") && truthy (jget body "name")) = true) := by
  unfold registerMain
  cases h1 : truthy (jget body "storeId") <;> cases h2 : truthy (jget body "name")
  · simp [h1, h2]
  · simp [h1, h2]
  · simp [h1, h2]
  · simp only [h1, h2, Bool.not_true, Bool.or_self, Bool.false_eq_true, if_false,
      Bool.and_self]
    constructor
    · constructor
      · rintro ⟨msg, hmsg⟩
        split at hmsg <;> simp at hmsg
      · intro h
        simp at h
    · constructor
      · intro
        trivial
      · intro
        split <;> exact ⟨_, rfl⟩

/-! ### Helper lemmas about the register payload stamps -/

theorem jget_regPayloadMain_of_ne (now : Int) (body : JObj) (k : String)
    (h1 : k ≠ "lastSeen") (h2 : k ≠ "status") (h3 : k ≠ "registeredAt") :
    jget (regPayloadMain now body) k = jget body k := by
  unfold regPayloadMain
  rw [jget_jset_other _ _ _ _ h3, jget_jset_other _ _ _ _ h2,
    jget_jset_other _ _ _ _ h1]

theorem jget_regPayloadMain_registeredAt (now : Int) (body : JObj) :
    jget (regPayloadMain now body) "registeredAt" = some (JVal.num now) :=
  jget_jset_self _ _ _

theorem jget_regPayloadMain_lastSeen (now : Int) (body : JObj) :
    jget (regPayloadMain now body) "lastSeen" = some (JVal.num now) := by
  unfold regPayloadMain
  rw [jget_jset_other _ _ _ _ (by decide), jget_jset_other _ _ _ _ (by decide),
    jget_jset_self]

theorem jget_regPayloadMain_status (now : Int) (body : JObj) :
    jget (regPayloadMain now body) "status" = some (JVal.str "online") := by
  unfold regPayloadMain
  rw [jget_jset_other _ _ _ _ (by decide), jget_jset_self]

/-! ### Claim C1 -/

/-- Counterexample to C1 on `main-server.js`: register stamps
`registeredAt` with the current time on every call before the merge, and
the stamp wins the merge.  A store first registered at time 100 holds
`registeredAt = 100`; re-registering the same payload at time 200 leaves
the stored record with `registeredAt = 200`, not the value set at the
first registration. -/
theorem c1_register_overwrites_registeredAt :
    (let body : JObj := [("storeId", JVal.str "s1"), ("name", JVal.str "Shop")]
     let first := (registerMain 100 [] body).toOption.getD []
     let second := (registerMain 200 first body).toOption.getD []
     (first.head?.bind (fun r => jget r "registeredAt") = some (JVal.num 100))
     ∧ (second.head?.bind (fun r => jget r "registeredAt") = some (JVal.num 200))) := by
  decide

/-- C1 amended: re-registering an existing `storeId` merges the stamped
payload over the stored record, so `lastSeen`, `status` and every field
supplied in the new payload are overwritten — but `registeredAt` is also
overwritten, with the time of the new registration (`main-server.js`; the
`part_000` variant would instead take a `registeredAt` carried by the new
payload, falling back to the new time).  The first registration survives
in no field the new call stamps. -/
theorem c1_register_merge_amended (now : Int) (pre post : List JObj)
    (old body : JObj)
    (hid : truthy (jget body "storeId") = true)
    (hname : truthy (jget body "name") = true)
    (hpre : ∀ s ∈ pre, (jget s "storeId" == jget body "storeId") = false)
    (hold : (jget old "storeId" == jget body "storeId") = true) :
    registerMain now (pre ++ old :: post) body
        = .ok (pre ++ jmerge old (regPayloadMain now body) :: post)
    ∧ jget (jmerge old (regPayloadMain now body)) "registeredAt"
        = some (JVal.num now)
    ∧ jget (jmerge old (regPayloadMain now body)) "lastSeen"
        = some (JVal.num now)
    ∧ jget (jmerge old (regPayloadMain now body)) "status"
        = some (JVal.str "online")
    ∧ (∀ k v, jget body k = some v → k ≠ "lastSeen" → k ≠ "status" →
        k ≠ "registeredAt" →
        jget (jmerge old (regPayloadMain now body)) k = some v) := by
  have hsid : jget (regPayloadMain now body) "storeId" = jget body "storeId" :=
    jget_regPayloadMain_of_ne _ _ _ (by decide) (by decide) (by decide)
  refine ⟨?_, ?_, ?_, ?_, ?_⟩
  · unfold registerMain
    simp only [hid, hname, Bool.not_true, Bool.or_self, Bool.false_eq_true,
      if_false, hsid]
    rw [if_pos (any_of_mem_middle _ _ _ _ hold),
      updateWhere_eq _ _ _ _ _ hpre hold]
  · rw [jget_jmerge, jget_regPayloadMain_registeredAt]
    rfl
  · rw [jget_jmerge, jget_regPayloadMain_lastSeen]
    rfl
  · rw [jget_jmerge, jget_regPayloadMain_status]
    rfl
  · intro k v hk h1 h2 h3
    rw [jget_jmerge, jget_regPayloadMain_of_ne _ _ _ h1 h2 h3, hk]
    rfl

/-- Witness for the amended C1 at a concrete re-registration. -/
theorem c1_register_merge_amended_witness :
    registerMain 200 [[("storeId", JVal.str "s1"), ("name", JVal.str "Shop"),
        ("registeredAt", JVal.num 100)]]
        [("storeId", JVal.str "s1"), ("name", JVal.str "Shop")]
      = .ok [jmerge [("storeId", JVal.str "s1"), ("name", JVal.str "Shop"),
          ("registeredAt", JVal.num 100)]
          (regPayloadMain 200
            [("storeId", JVal.str "s1"), ("name", JVal.str "Shop")])] :=
  (c1_register_merge_amended 200 [] []
    [("storeId", JVal.str "s1"), ("name", JVal.str "Shop"),
      ("registeredAt", JVal.num 100)]
    [("storeId", JVal.str "s1"), ("name", JVal.str "Shop")]
    (by decide) (by decide) (by simp) (by decide)).1

/-! ### Claim C6 -/

/-- C6: manual-add with an existing `storeId` replaces the stored record
wholesale by a freshly constructed six field record; any field of the old
record that is absent from the new payload and not among the fields the
endpoint itself sets does not survive (indeed no key outside the six
constructed ones is present at all).  The last conjunct exhibits the
contrasting register semantics on the same payload: a field absent from
the payload and not stamped by register survives the register merge
unchanged. -/
theorem c6_manualAdd_replaces (now : Int) (pre post : List JObj)
    (old body : JObj)
    (hid : truthy (jget body "storeId") = true)
    (hname : truthy (jget body "name") = true)
    (hpre : ∀ s ∈ pre, (jget s "storeId" == jget body "storeId") = false)
    (hold : (jget old "storeId" == jget body "storeId") = true) :
    ∃ storeInfo,
      manualAddMain now (pre ++ old :: post) body
          = .ok (pre ++ storeInfo :: post, storeInfo)
      ∧ (∀ k, k ≠ "storeId" → k ≠ "name" → k ≠ "location" → k ≠ "url" →
          k ≠ "lastSeen" → k ≠ "status" → jget storeInfo k = none)
      ∧ (∀ k, k ≠ "lastSeen" → k ≠ "status" → k ≠ "registeredAt" →
          jget body k = none →
          jget (jmerge old (regPayloadMain now body)) k = jget old k) := by
  refine ⟨[("storeId", (jget body "storeId").getD .null),
    ("name", (jget body "name").getD .null),
    ("location", jsOr (jget body "location") (.str "Unknown Location")),
    ("url", jsOr (jget body "url") (.str "http://localhost:3000")),
    ("lastSeen", .num now), ("status", .str "online")], ?_, ?_, ?_⟩
  · unfold manualAddMain
    simp only [hid, hname, Bool.not_true, Bool.or_self, Bool.false_eq_true,
      if_false]
    rw [if_pos (any_of_mem_middle _ _ _ _ hold),
      updateWhere_eq _ _ _ _ _ hpre hold]
  · intro k n1 n2 n3 n4 n5 n6
    have b1 : (k == "storeId") = false := by simpa using n1
    have b2 : (k == "name") = false := by simpa using n2
    have b3 : (k == "location") = false := by simpa using n3
    have b4 : (k == "url") = false := by simpa using n4
    have b5 : (k == "lastSeen") = false := by simpa using n5
    have b6 : (k == "status") = false := by simpa using n6
    simp [jget, List.lookup, b1, b2, b3, b4, b5, b6]
  · intro k h1 h2 h3 hk
    rw [jget_jmerge, jget_regPayloadMain_of_ne _ _ _ h1 h2 h3, hk]
    rfl

/-- Witness for C6: the field "extra" of the old record is gone after
manual-add, and survives a register merge with the same payload. -/
theorem c6_manualAdd_replaces_witness :
    ∃ storeInfo,
      manualAddMain 5 [[("storeId", JVal.str "a"), ("extra", JVal.str "x")]]
          [("storeId", JVal.str "a"), ("name", JVal.str "N")]
          = .ok ([storeInfo], storeInfo)
      ∧ (∀ k, k ≠ "storeId" → k ≠ "name" → k ≠ "location" → k ≠ "url" →
          k ≠ "lastSeen" → k ≠ "status" → jget storeInfo k = none)
      ∧ (∀ k, k ≠ "lastSeen" → k ≠ "status" → k ≠ "registeredAt" →
          jget [("storeId", JVal.str "a"), ("name", JVal.str "N")] k = none →
          jget (jmerge [("storeId", JVal.str "a"), ("extra", JVal.str "x")]
            (regPayloadMain 5 [("storeId", JVal.str "a"), ("name", JVal.str "N")])) k
            = jget [("storeId", JVal.str "a"), ("extra", JVal.str "x")] k) :=
  c6_manualAdd_replaces 5 [] [] [("storeId", JVal.str "a"), ("extra", JVal.str "x")]
    [("storeId", JVal.str "a"), ("name", JVal.str "N")]
    (by decide) (by decide) (by simp) (by decide)

/-! ### Claim C9 -/

/-- C9: an order payload that passes field validation but whose `storeId`
matches no record of the stores collection is rejected with 404
"Store not found".  The registry lookup happens before the orders
collection is read or written, and the error branch returns no new
collection, so nothing is appended and nothing is persisted. -/
theorem c9_createOrder_unknown_store (now : Int) (stores orders : List JObj)
    (body : JObj)
    (hs : truthy (jget body "storeId") = true)
    (hi : truthy (jget body "items") = true)
    (hc : truthy (jget body "customer") = true)
    (hnone : ∀ s ∈ stores, (jget s "storeId" == jget body "storeId") = false) :
    createOrder now stores orders body = .error (404, "Store not found") := by
  unfold createOrder
  simp only [hs, hi, hc, Bool.not_true, Bool.or_self, Bool.false_eq_true,
    if_false]
  have hsid :
      jget (jset (jset (jset body "orderId"
          (.str ("MAIN-ORD-" ++ toString now))) "createdAt" (.num now))
          "status" (.str "pending")) "storeId" = jget body "storeId" := by
    rw [jget_jset_other _ _ _ _ (by decide), jget_jset_other _ _ _ _ (by decide),
      jget_jset_other _ _ _ _ (by decide)]
  have hfind : stores.find? (fun s => jget s "storeId" ==
      jget (jset (jset (jset body "orderId"
        (.str ("MAIN-ORD-" ++ toString now))) "createdAt" (.num now))
        "status" (.str "pending")) "storeId") = none := by
    rw [List.find?_eq_none]
    intro s hsmem
    rw [hsid, hnone s hsmem]
    exact Bool.false_ne_true
  rw [hfind]

/-- Witness for C9: a validated payload naming an unknown store. -/
theorem c9_createOrder_unknown_store_witness :
    createOrder 7 [[("storeId", JVal.str "other")]] []
        [("storeId", JVal.str "s"), ("items", JVal.str "i"),
          ("customer", JVal.str "c")]
      = .error (404, "Store not found") :=
  c9_createOrder_unknown_store 7 [[("storeId", JVal.str "other")]] []
    [("storeId", JVal.str "s"), ("items", JVal.str "i"),
      ("customer", JVal.str "c")]
    (by decide) (by decide) (by decide) (by decide)

/-! ### Claim C7 -/

/-- C7: a successful sync for the store `storeId` leaves the catalog
partition of every other store `b` exactly as it was, removes no record of
another store, and replaces the partition of `storeId` by exactly the
fetched list (assuming, as the data model specifies, that the fetched
products are tagged with the owning store), so at most one generation per
store remains. -/
theorem c7_syncOne_frame (fetch : Option JVal → Option (List JObj))
    (storeId : String) (stores products ps : List JObj) (store : JObj)
    (hfind : stores.find? (fun s => jget s "storeId" == some (JVal.str storeId))
        = some store)
    (hfetch : fetch (jget store "url") = some ps)
    (htag : ∀ p ∈ ps, jget p "storeId" = some (JVal.str storeId)) :
    ∃ newP,
      syncOne fetch storeId stores products
          = .ok (newP, ps.length, jget store "name")
      ∧ (∀ b : String, b ≠ storeId →
          newP.filter (fun p => jget p "storeId" == some (JVal.str b))
            = products.filter (fun p => jget p "storeId" == some (JVal.str b)))
      ∧ (∀ p ∈ products,
          (jget p "storeId" == some (JVal.str storeId)) = false → p ∈ newP)
      ∧ newP.filter (fun p => jget p "storeId" == some (JVal.str storeId))
          = ps := by
  refine ⟨products.filter
      (fun p => !(jget p "storeId" == some (JVal.str storeId))) ++ ps,
    ?_, ?_, ?_, ?_⟩
  · simp only [syncOne, hfind, hfetch]
  · intro b hb
    rw [List.filter_append, List.filter_filter]
    have h1 : ps.filter (fun p => jget p "storeId" == some (JVal.str b)) = [] := by
      rw [List.filter_eq_nil_iff]
      intro p hp
      rw [htag p hp]
      simp only [beq_iff_eq, Option.some.injEq, JVal.str.injEq]
      exact fun h => hb h.symm
    rw [h1, List.append_nil]
    apply List.filter_congr
    intro p _
    cases hps : (jget p "storeId" == some (JVal.str b))
    · simp [hps]
    · have hpb : jget p "storeId" = some (JVal.str b) := by
        simpa [beq_iff_eq] using hps
      have : (jget p "storeId" == some (JVal.str storeId)) = false := by
        rw [hpb]
        simp only [beq_eq_false_iff_ne, ne_eq, Option.some.injEq, JVal.str.injEq]
        exact fun h => hb h
      simp [hps, this]
  · intro p hp hfalse
    apply List.mem_append_left
    exact List.mem_filter_of_mem hp (by simp [hfalse])
  · rw [List.filter_append, List.filter_filter]
    have h1 : products.filter
        (fun a => (jget a "storeId" == some (JVal.str storeId)) &&
          !(jget a "storeId" == some (JVal.str storeId))) = [] := by
      rw [List.filter_eq_nil_iff]
      intro a _
      cases h : (jget a "storeId" == some (JVal.str storeId)) <;> simp [h]
    rw [h1, List.nil_append]
    rw [List.filter_eq_self]
    intro p hp
    rw [htag p hp]
    simp

/-- Witness for C7 at a two store catalog. -/
theorem c7_syncOne_frame_witness :
    ∃ newP,
      syncOne (fun _ => some [[("storeId", JVal.str "a")]]) "a"
          [[("storeId", JVal.str "a"), ("url", JVal.str "u"),
            ("name", JVal.str "A")]]
          [[("storeId", JVal.str "b")]]
          = .ok (newP, List.length [[("storeId", JVal.str "a")]],
              jget [("storeId", JVal.str "a"), ("url", JVal.str "u"),
                ("name", JVal.str "A")] "name")
      ∧ (∀ b : String, b ≠ "a" →
          newP.filter (fun p => jget p "storeId" == some (JVal.str b))
            = List.filter (fun p => jget p "storeId" == some (JVal.str b))
                [[("storeId", JVal.str "b")]])
      ∧ (∀ p ∈ [[("storeId", JVal.str "b")]],
          (jget p "storeId" == some (JVal.str "a")) = false → p ∈ newP)
      ∧ newP.filter (fun p => jget p "storeId" == some (JVal.str "a"))
          = [[("storeId", JVal.str "a")]] :=
  c7_syncOne_frame (fun _ => some [[("storeId", JVal.str "a")]]) "a"
    [[("storeId", JVal.str "a"), ("url", JVal.str "u"), ("name", JVal.str "A")]]
    [[("storeId", JVal.str "b")]] [[("storeId", JVal.str "a")]]
    [("storeId", JVal.str "a"), ("url", JVal.str "u"), ("name", JVal.str "A")]
    (by decide) rfl (by decide)

/-! ### Claim C8 -/

/-- C8: over the selected store list [B, A] where both carry the stored
status "online", the fetch for B fails (thrown error or non ok response)
and the fetch for A succeeds, `sync-all` still ingests every product of
A into the catalog, reports one synced store, and does not abort on the
failing iteration (B is processed first). -/
theorem c8_syncAll_failure_tolerated (fetch : Option JVal → Option (List JObj))
    (A B : JObj) (psA products : List JObj)
    (hA : jget A "status" = some (JVal.str "online"))
    (hB : jget B "status" = some (JVal.str "online"))
    (hfA : fetch (jget A "url") = some psA)
    (hfB : fetch (jget B "url") = none) :
    ∃ newP, syncAll fetch [B, A] products = (newP, psA.length, 1)
      ∧ ∀ p ∈ psA, p ∈ newP := by
  have hBon : (jget B "status" == some (JVal.str "online")) = true := by
    simp [hB]
  have hAon : (jget A "status" == some (JVal.str "online")) = true := by
    simp [hA]
  refine ⟨products.filter (fun p => !(jget p "storeId" == jget A "storeId"))
      ++ psA, ?_, ?_⟩
  · simp only [syncAll, List.filter, hBon, hAon, List.foldl_cons,
      List.foldl_nil, syncStep, hfB, hfA, Nat.zero_add]
  · intro p hp
    exact List.mem_append_right _ hp

/-- Witness for C8: store a succeeds with one product, store b fails. -/
theorem c8_syncAll_failure_tolerated_witness :
    ∃ newP,
      syncAll
          (fun u => if u == some (JVal.str "ua")
            then some [[("storeId", JVal.str "a")]] else none)
          [[("storeId", JVal.str "b"), ("url", JVal.str "ub"),
              ("status", JVal.str "online")],
            [("storeId", JVal.str "a"), ("url", JVal.str "ua"),
              ("status", JVal.str "online")]] []
        = (newP, List.length [[("storeId", JVal.str "a")]], 1)
      ∧ ∀ p ∈ [[("storeId", JVal.str "a")]], p ∈ newP :=
  c8_syncAll_failure_tolerated
    (fun u => if u == some (JVal.str "ua")
      then some [[("storeId", JVal.str "a")]] else none)
    [("storeId", JVal.str "a"), ("url", JVal.str "ua"),
      ("status", JVal.str "online")]
    [("storeId", JVal.str "b"), ("url", JVal.str "ub"),
      ("status", JVal.str "online")]
    [[("storeId", JVal.str "a")]] []
    (by decide) (by decide) (by decide) (by decide)

/-! ### Claim C4 -/

/-- Counterexample to C4 on `main-server.js`: its `GET /api/orders`
handler (lines 296 to 303, cited by the claim) returns the stored
collection as is — no filter, no sort.  Two orders stored oldest first
come back oldest first, not newest first as the claim requires. -/
theorem c4_main_orders_unsorted :
    getOrdersMain [[("createdAt", JVal.num 1)], [("createdAt", JVal.num 2)]]
        = [[("createdAt", JVal.num 1)], [("createdAt", JVal.num 2)]]
      ∧ dateNum [("createdAt", JVal.num 1)] < dateNum [("createdAt", JVal.num 2)] := by
  exact ⟨rfl, by decide⟩

/-- C4 amended: in the `part_000`/`part_001` variants the order list
operation applies the exact match filters on `storeId` and `status`
(sentinel "all" meaning no status filter), returns the surviving orders
sorted by `createdAt` descending — for creation times T1 < T2 < T3 the
unfiltered result is [T3, T2, T1] — and persists nothing (pure read).
The `main-server.js` variant instead returns the stored collection
unfiltered and unsorted. -/
theorem c4_listOrders_amended :
    (∀ (sid st : Option String) (orders : List JObj),
        List.Sorted ordersGE (listOrders sid st orders)
        ∧ (listOrders sid st orders).Perm (ordersFilter sid st orders))
    ∧ (∀ t1 t2 t3 : Int, t1 < t2 → t2 < t3 →
        listOrders none none
            [[("createdAt", JVal.num t1)], [("createdAt", JVal.num t2)],
              [("createdAt", JVal.num t3)]]
          = [[("createdAt", JVal.num t3)], [("createdAt", JVal.num t2)],
              [("createdAt", JVal.num t1)]]) := by
  constructor
  · intro sid st orders
    exact ⟨List.sorted_insertionSort ordersGE _,
      List.perm_insertionSort ordersGE _⟩
  · intro t1 t2 t3 h12 h23
    have d1 : dateNum [("createdAt", JVal.num t1)] = t1 := rfl
    have d2 : dateNum [("createdAt", JVal.num t2)] = t2 := rfl
    have d3 : dateNum [("createdAt", JVal.num t3)] = t3 := rfl
    have n23 : ¬ ordersGE [("createdAt", JVal.num t2)]
        [("createdAt", JVal.num t3)] := by
      simp only [ordersGE, d2, d3]
      omega
    have n13 : ¬ ordersGE [("createdAt", JVal.num t1)]
        [("createdAt", JVal.num t3)] := by
      simp only [ordersGE, d1, d3]
      omega
    have n12 : ¬ ordersGE [("createdAt", JVal.num t1)]
        [("createdAt", JVal.num t2)] := by
      simp only [ordersGE, d1, d2]
      omega
    simp only [listOrders, ordersFilter, qTruthy]
    simp only [Bool.false_and, Bool.false_eq_true, if_false]
    simp [List.insertionSort, List.orderedInsert, n23, n13, n12]

/-- Witness for the amended C4 at creation times 1 < 2 < 3. -/
theorem c4_listOrders_amended_witness :
    listOrders none none
        [[("createdAt", JVal.num 1)], [("createdAt", JVal.num 2)],
          [("createdAt", JVal.num 3)]]
      = [[("createdAt", JVal.num 3)], [("createdAt", JVal.num 2)],
          [("createdAt", JVal.num 1)]] :=
  c4_listOrders_amended.2 1 2 3 (by decide) (by decide)

end Gorcery
